import Mathlib

/-!
Verification of the password-manager frontend (Dashboard, SecurityInsights,
LoginForm, axios utilities) and of the spec-described security engine
(CredentialCipher, TotpAuthenticator, BreachChecker, StrengthScorer,
ReuseAndAgeAnalyzer).  Times are modelled in integer milliseconds
(JavaScript `Date.getTime()`), and `Math.round`/`Math.ceil` over the
non-negative rationals that arise here are modelled exactly on `Nat`.
-/

namespace PasswordManager

/-- JavaScript `Math.round (num / den)` for non-negative integer `num` and
positive integer `den`: `Math.round x = ⌊x + 1/2⌋`, and
`⌊num/den + 1/2⌋ = (2*num + den) / (2*den)` in integer division. -/
def mathRound (num den : Nat) : Nat :=
  (2 * num + den) / (2 * den)

/-- JavaScript `Math.ceil (num / den)` for non-negative integer `num` and
positive integer `den`. -/
def mathCeil (num den : Nat) : Nat :=
  (num + den - 1) / den

/-- Milliseconds per day, the constant `1000 * 60 * 60 * 24 = 86400000`
from `getPasswordAge` in `Dashboard.tsx`. -/
def msPerDay : Nat := 86400000

/-- One account record as the dashboard receives it from the backend
(`interface Account` in `Dashboard.tsx`): timestamps in ms since epoch. -/
structure Account where
  username : String
  password : String
  password_strength : Nat
  password_breach : Bool
  password_reuse : List String
  has_2fa : Bool
  last_changed : Int
deriving DecidableEq, Repr

/-- `getPasswordAge` from `Dashboard.tsx`:
`Math.ceil(Math.abs(today.getTime() - lastChangedDate.getTime()) / (1000*60*60*24))`. -/
def getPasswordAge (lastChanged now : Int) : Nat :=
  mathCeil (now - lastChanged).natAbs msPerDay

/-- The "Password is N days old - update recommended" chip in the accounts
list of `Dashboard.tsx` is rendered when `getPasswordAge(account.last_changed) >= 90`. -/
def agingChipShown (lastChanged now : Int) : Bool :=
  90 ≤ getPasswordAge lastChanged now

/-- The security metrics object computed by `calculateSecurityMetrics` in
`Dashboard.tsx` (and identically in `layouts/Dashboard.tsx`). -/
structure SecurityMetrics where
  overallScore : Nat
  passwordStrength : Nat
  passwordAge : Nat
  reusedPasswords : Nat
  twoFactorPercentage : Nat
deriving DecidableEq, Repr

/-- `calculateSecurityMetrics` from `Dashboard.tsx`: returns `null` for an
empty account map, otherwise averages strength (scaled by 20), the share of
passwords younger than 90 days, the share of distinct passwords
(`new Set(passwords).size`), and the share of 2FA-enabled accounts, then
rounds the mean of the four submetrics. -/
def calculateSecurityMetrics (accounts : List Account) (now : Int) :
    Option SecurityMetrics :=
  let totalAccounts := accounts.length
  if totalAccounts = 0 then none
  else
    let passwordStrength :=
      mathRound (accounts.foldl (fun sum acc => sum + acc.password_strength * 20) 0)
        totalAccounts
    let goodAgeCount :=
      (accounts.filter (fun acc => getPasswordAge acc.last_changed now < 90)).length
    let passwordAge := mathRound (goodAgeCount * 100) totalAccounts
    let uniquePasswords := (accounts.map (·.password)).dedup.length
    let reusedPasswords := mathRound (uniquePasswords * 100) totalAccounts
    let twoFACount := (accounts.filter (·.has_2fa)).length
    let twoFactorPercentage := mathRound (twoFACount * 100) totalAccounts
    let overallScore :=
      mathRound (passwordStrength + passwordAge + reusedPasswords + twoFactorPercentage) 4
    some { overallScore, passwordStrength, passwordAge, reusedPasswords,
           twoFactorPercentage }

/-- `generateInsights` from `SecurityInsights.tsx`, reduced to the titles of
the insights pushed, in order; every condition is taken verbatim from the
source. -/
def generateInsights (metrics : SecurityMetrics) (totalAccounts : Nat) :
    List String :=
  (if 80 ≤ metrics.passwordStrength then ["Strong Password Security"]
   else if metrics.passwordStrength < 60 then ["Weak Password Security"] else []) ++
  (if metrics.passwordAge < 70 then ["Password Age Issues"] else []) ++
  (if metrics.reusedPasswords < 100 then ["Password Reuse Detected"] else []) ++
  (if metrics.twoFactorPercentage < 50 then ["Low 2FA Adoption"] else []) ++
  (if totalAccounts < 5 then ["Account Coverage"] else [])

/-- An arbitrary current time used by concrete evaluations (2025-01-01 UTC
in ms). -/
def sampleNow : Int := 1735689600000

/-- A throwaway account record with the given password, for concrete
evaluations of the metric pipeline. -/
def mkAccount (pw : String) : Account :=
  { username := "user", password := pw, password_strength := 3,
    password_breach := false, password_reuse := [], has_2fa := false,
    last_changed := sampleNow }

/-- 201 accounts: passwords `"p0", "p0", "p1", …, "p199"` — exactly one
duplicated password, 200 distinct values. -/
def reuseEdgeAccounts : List Account :=
  (("p0" :: (List.range 200).map (fun n => "p" ++ toString n)).map mkAccount)

/-- One entry of the aging list returned by the backend
(`interface AgingPassword` in `Dashboard.tsx`). -/
structure AgingPassword where
  service : String
  days_old : Nat
deriving DecidableEq, Repr

/-- Modelled from the spec: the backend `aging(accounts, threshold_days=90, now)`
function of the ReuseAndAgeAnalyzer (the Python backend is not in the
repository snapshot) — it returns the accounts whose `last_changed` is older
than the threshold, with their age in whole days. -/
def aging (accounts : List (String × Int)) (thresholdDays : Nat) (now : Int) :
    List AgingPassword :=
  accounts.filterMap (fun a =>
    let diff := (now - a.2).natAbs
    if thresholdDays * msPerDay < diff then some ⟨a.1, diff / msPerDay⟩ else none)

/-- Modelled from the spec: the per-service entry of the ReuseAndAgeAnalyzer
`reuse(accounts)` map (backend not in the repository snapshot) — the other
services whose decrypted password is byte-for-byte identical. -/
def reuseSet (entries : List (String × String)) (service pw : String) :
    List String :=
  ((entries.filter (fun o => decide (o.1 ≠ service) && decide (o.2 = pw))).map (·.1))

/-- Modelled from the spec: `reuse(accounts) -> map(service -> others)`,
assembled from `reuseSet`. -/
def reuse (entries : List (String × String)) : List (String × List String) :=
  entries.map (fun e => (e.1, reuseSet entries e.1 e.2))

/-- Modelled from the spec: `StrengthScorer.score` (backend not in the
repository snapshot) — length tiers (below 8: 0, 8–11: 1, 12–15: 2, 16 and
more: 3), one point per character class present among lowercase, uppercase,
digit and symbol, a penalty of 2 for low class diversity relative to length
(length at least 8 but at most one class), clamped to the range 0–5. -/
def score (password : String) : Nat :=
  let cs := password.data
  let len := cs.length
  let lengthPoints :=
    if len < 8 then 0 else if len < 12 then 1 else if len < 16 then 2 else 3
  let classes :=
    (if cs.any (·.isLower) then 1 else 0) +
    (if cs.any (·.isUpper) then 1 else 0) +
    (if cs.any (·.isDigit) then 1 else 0) +
    (if cs.any (fun c => !c.isAlphanum) then 1 else 0)
  let raw := lengthPoints + classes
  let penalized := if 8 ≤ len ∧ classes ≤ 1 then raw - 2 else raw
  min penalized 5

/-- A 32-bit rolling-hash step, the primitive from which the modelled
keystream, tag and one-time-code functions are built. -/
def mix (a b : Nat) : Nat := (a * 131 + b + 1) % 4294967296

/-- Deterministic pseudo-random value of a byte sequence, via `mix`. -/
def prf (seed : List Nat) : Nat := seed.foldl mix 17

/-- Modelled from the spec: the ciphertext bundle of `CredentialCipher`
(backend not in the repository snapshot) — nonce, ciphertext and integrity
tag travel together. -/
structure CiphertextBundle where
  nonce : List Nat
  ciphertext : List Nat
  tag : Nat
deriving DecidableEq, Repr

/-- Modelled from the spec: `CredentialCipher.encrypt(plaintext, key)`
(backend not in the repository snapshot) — a Fernet-style authenticated
scheme over byte sequences: a pad derived from key and nonce masks each
byte mod 256, and the tag binds key, nonce and ciphertext. -/
def encrypt (plaintext key nonce : List Nat) : CiphertextBundle :=
  let pad := prf (key ++ nonce) % 256
  let ct := plaintext.map (fun b => (b + pad) % 256)
  { nonce := nonce, ciphertext := ct, tag := prf (key ++ nonce ++ ct) }

/-- Modelled from the spec: `CredentialCipher.decrypt(bundle, key)`
(backend not in the repository snapshot) — recomputes the tag, fails closed
on mismatch, otherwise unmasks each byte. -/
def decrypt (bundle : CiphertextBundle) (key : List Nat) : Option (List Nat) :=
  if bundle.tag = prf (key ++ bundle.nonce ++ bundle.ciphertext) then
    let pad := prf (key ++ bundle.nonce) % 256
    some (bundle.ciphertext.map (fun b => (b + 256 - pad) % 256))
  else none

/-- Modelled from the spec: the 6-digit TOTP code of a secret for a given
30-second window index (backend not in the repository snapshot). -/
def totpCode (secret : List Nat) (window : Nat) : Nat :=
  prf (secret ++ [window]) % 1000000

/-- Modelled from the spec: `TotpAuthenticator.verify(secret, code, at_time)`
with the replay tracker (backend not in the repository snapshot).  The
window index is `at_time / 30`; a code matching the current window or the
immediately preceding one is accepted, provided its window is strictly newer
than the last consumed window; the accepted window becomes the new tracked
state. -/
def totpVerify (secret : List Nat) (code : Nat) (atTime : Nat)
    (lastConsumed : Option Nat) : Bool × Option Nat :=
  let w := atTime / 30
  let matched : Option Nat :=
    if code = totpCode secret w then some w
    else if 1 ≤ w ∧ code = totpCode secret (w - 1) then some (w - 1)
    else none
  match matched with
  | none => (false, lastConsumed)
  | some m =>
    match lastConsumed with
    | none => (true, some m)
    | some lw => if lw < m then (true, some m) else (false, lastConsumed)

/-- The result record of `BreachChecker.check`. -/
structure BreachResult where
  breached : Bool
  checked : Bool
deriving DecidableEq, Repr

/-- Modelled from the spec: the hex digest used by the k-anonymity protocol
(backend not in the repository snapshot); a deterministic stand-in for the
fixed cryptographic hash. -/
def hashHex (password : String) : String :=
  String.mk (Nat.toDigits 16 (prf (password.data.map Char.toNat)))

/-- Modelled from the spec: the bounded retry loop of `BreachChecker.check`
(backend not in the repository snapshot).  `transport i` is the outcome of
attempt `i` against the remote corpus: suffix/count rows, or `none` for a
network error or timeout.  Returns the result together with the number of
attempts made. -/
def runAttempts (transport : Nat → Option (List (String × Nat)))
    (sfx : String) : Nat → Nat → BreachResult × Nat
  | 0, used => ({ breached := false, checked := false }, used)
  | fuel + 1, used =>
    match transport used with
    | some rows => ({ breached := rows.any (fun r => r.1 == sfx), checked := true }, used + 1)
    | none => runAttempts transport sfx fuel (used + 1)

/-- Modelled from the spec: `BreachChecker.check(password)` — hash the
password, query with the 5-character hex digest beginning, match the digest
remainder locally; one initial attempt plus up to 2 retries, degrading to
breached false and checked false when every attempt fails.  (The backoff
delay between attempts is real time and is not modelled.) -/
def breachCheck (transport : Nat → Option (List (String × Nat)))
    (password : String) : BreachResult × Nat :=
  runAttempts transport ((hashHex password).drop 5) 3 0

/-- The part of the login response body that `LoginForm.tsx` inspects. -/
structure LoginResponse where
  status : Option String
  access_token : Option String
  username : String
  user_id : Option String
deriving DecidableEq, Repr

/-- The externally observable outcome of one login-form handler run. -/
inductive LoginAction where
  | prompt2FA : LoginAction
  | completeLogin (token : String) (username : String) : LoginAction
  | noAction : LoginAction
deriving DecidableEq, Repr

/-- `LoginForm.handleSubmit` success path: the `2fa_required` status is
checked first and short-circuits with the TOTP dialog; otherwise a truthy
(non-empty) `access_token` is stored and `onLogin` fires. -/
def handleSubmit (r : LoginResponse) : LoginAction :=
  if r.status = some "2fa_required" then .prompt2FA
  else
    match r.access_token with
    | some t => if t ≠ "" then .completeLogin t r.username else .noAction
    | none => .noAction

/-- `LoginForm.handleVerify2FA` success path: a truthy `access_token`
completes the login, anything else leaves the dialog open. -/
def handleVerify2FA (r : LoginResponse) : LoginAction :=
  match r.access_token with
  | some t => if t ≠ "" then .completeLogin t r.username else .noAction
  | none => .noAction

/-- The part of an axios error object that the response interceptor in
`utils/axios.ts` inspects: HTTP status, request URL, and the retry marker
written onto the original request. -/
structure AxiosError where
  status : Option Nat
  url : Option String
  isRetry : Bool
deriving DecidableEq, Repr

/-- The settings payload fabricated by the interceptor for a 401 on the
settings endpoint. -/
structure SettingsData where
  username : String
  email : Option String
  totp_enabled : Bool
deriving DecidableEq, Repr

/-- What the response interceptor does with a failed response.  The token
refresh queue of `utils/axios.ts` is concurrency machinery; its single
request path is modelled: a retried 401 resubmits the request, a 401
without a stored token redirects to login. -/
inductive InterceptResult where
  | resolved (data : SettingsData) : InterceptResult
  | retryRequest : InterceptResult
  | redirectToLogin : InterceptResult
  | rejected : InterceptResult
deriving DecidableEq, Repr

/-- JavaScript `String.prototype.includes` on character lists. -/
def containsSub (pat : List Char) : List Char → Bool
  | [] => pat.isEmpty
  | h :: t => pat.isPrefixOf (h :: t) || containsSub pat t

/-- The settings endpoint path singled out by the interceptor. -/
def settingsUrl : String := "/api/user/settings"

/-- The URL condition of the interceptor:
`url === '/api/user/settings' || url?.includes('/api/user/settings')`. -/
def urlMatchesSettings (url : Option String) : Bool :=
  match url with
  | some u => u == settingsUrl || containsSub settingsUrl.data u.data
  | none => false

/-- The error branch of `api.interceptors.response.use` in `utils/axios.ts`:
a 401 on the settings endpoint resolves with default settings data; any
other 401 goes through the retry path (redirect when no token is stored);
everything else rejects. -/
def responseInterceptorOnError (storedToken storedUsername : Option String)
    (e : AxiosError) : InterceptResult :=
  if e.status = some 401 ∧ urlMatchesSettings e.url then
    .resolved { username := storedUsername.getD "", email := none, totp_enabled := false }
  else if e.status = some 401 ∧ e.isRetry = false then
    match storedToken with
    | none => .redirectToLogin
    | some _ => .retryRequest
  else .rejected

/-- The client-side credential state touched by login and logout: the
localStorage entries `token`, `username` and `user_id`, the axios default
Authorization header, and the module-level freshness timestamp. -/
structure ClientAuthState where
  token : Option String
  username : Option String
  user_id : Option String
  authHeader : Option String
  lastSuccessfulAuthTime : Nat
deriving DecidableEq, Repr

/-- `clearAuthToken` from `utils/axios.ts`: removes the `token` and
`username` localStorage entries, deletes the default Authorization header,
and resets the freshness timestamp. -/
def clearAuthToken (s : ClientAuthState) : ClientAuthState :=
  { s with token := none, username := none, authHeader := none,
           lastSuccessfulAuthTime := 0 }

/-- `handleLogout` from `app/page.tsx`: removes the `token` and `username`
localStorage entries and deletes the default Authorization header. -/
def handleLogout (s : ClientAuthState) : ClientAuthState :=
  { s with token := none, username := none, authHeader := none }

/-- The Authorization header an outgoing request ends up with: the request
interceptor overrides it with the stored token when one exists, otherwise
the axios defaults apply. -/
def requestAuthHeader (s : ClientAuthState) : Option String :=
  match s.token with
  | some t => some ("Bearer " ++ t)
  | none => s.authHeader

/-! ## Helper lemmas -/

theorem mathRound_le_hundred {p n : Nat} (hn : 0 < n) (hp : p ≤ 100 * n) :
    mathRound p n ≤ 100 := by
  have h : (2 * p + n) / (2 * n) < 101 :=
    (Nat.div_lt_iff_lt_mul (by omega)).mpr (by omega)
  simpa [mathRound] using Nat.lt_succ_iff.mp h

theorem mathRound_all_distinct {n : Nat} (hn : 0 < n) :
    mathRound (n * 100) n = 100 := by
  unfold mathRound
  exact Nat.div_eq_of_lt_le (by omega) (by omega)

theorem mathRound_lt_hundred {u n : Nat} (hu : u < n) (hsmall : n < 200) :
    mathRound (u * 100) n < 100 := by
  unfold mathRound
  exact (Nat.div_lt_iff_lt_mul (by omega)).mpr (by omega)

theorem dedup_length_lt {α : Type} [DecidableEq α] {l : List α}
    (h : ¬ l.Nodup) : l.dedup.length < l.length := by
  rcases Nat.lt_or_ge l.dedup.length l.length with hlt | hge
  · exact hlt
  · exfalso
    have hsub := List.dedup_sublist l
    have heq : l.dedup = l := hsub.eq_of_length (Nat.le_antisymm hsub.length_le hge)
    exact h (List.dedup_eq_self.mp heq)

theorem foldl_strength_le (l : List Account)
    (h : ∀ a ∈ l, a.password_strength ≤ 5) (i : Nat) :
    l.foldl (fun sum acc => sum + acc.password_strength * 20) i ≤
      i + 100 * l.length := by
  induction l generalizing i with
  | nil => simp
  | cons a t ih =>
    have ha := h a (List.mem_cons_self a t)
    have ht := fun b hb => h b (List.mem_cons_of_mem a hb)
    calc (a :: t).foldl (fun sum acc => sum + acc.password_strength * 20) i
        = t.foldl (fun sum acc => sum + acc.password_strength * 20)
            (i + a.password_strength * 20) := rfl
      _ ≤ (i + a.password_strength * 20) + 100 * t.length := ih ht _
      _ ≤ i + 100 * (a :: t).length := by simp [List.length_cons]; omega

theorem metrics_some (accounts : List Account) (now : Int)
    (h : accounts ≠ []) :
    calculateSecurityMetrics accounts now = some
      { passwordStrength :=
          mathRound (accounts.foldl (fun sum acc => sum + acc.password_strength * 20) 0)
            accounts.length,
        passwordAge :=
          mathRound
            ((accounts.filter (fun acc => getPasswordAge acc.last_changed now < 90)).length * 100)
            accounts.length,
        reusedPasswords :=
          mathRound ((accounts.map (·.password)).dedup.length * 100) accounts.length,
        twoFactorPercentage :=
          mathRound ((accounts.filter (·.has_2fa)).length * 100) accounts.length,
        overallScore :=
          mathRound
            (mathRound (accounts.foldl (fun sum acc => sum + acc.password_strength * 20) 0)
               accounts.length +
             mathRound
               ((accounts.filter (fun acc => getPasswordAge acc.last_changed now < 90)).length * 100)
               accounts.length +
             mathRound ((accounts.map (·.password)).dedup.length * 100) accounts.length +
             mathRound ((accounts.filter (·.has_2fa)).length * 100) accounts.length) 4 } := by
  have hl : accounts.length ≠ 0 := by
    simpa [List.length_eq_zero] using h
  simp [calculateSecurityMetrics, hl]

theorem reuseInsight_mem_iff (m : SecurityMetrics) (n : Nat) :
    ("Password Reuse Detected" ∈ generateInsights m n) ↔ m.reusedPasswords < 100 := by
  unfold generateInsights
  split_ifs <;> simp_all [List.mem_append]

/-! ## Claim theorems -/

/-- C10: after logout (`handleLogout` in `page.tsx` / `clearAuthToken` in
`utils/axios.ts`), the stored token and username are removed and the default
Authorization header is deleted, so a subsequent request obtains no bearer
token from the defaults; the remaining stored credential state (`user_id`)
is untouched. -/
theorem logout_clears_auth (s : ClientAuthState) :
    (clearAuthToken s).token = none ∧ (clearAuthToken s).username = none ∧
    (clearAuthToken s).authHeader = none ∧
    requestAuthHeader (clearAuthToken s) = none ∧
    (clearAuthToken s).user_id = s.user_id ∧
    (handleLogout s).token = none ∧ (handleLogout s).username = none ∧
    (handleLogout s).authHeader = none ∧
    requestAuthHeader (handleLogout s) = none ∧
    (handleLogout s).user_id = s.user_id ∧
    (handleLogout s).lastSuccessfulAuthTime = s.lastSuccessfulAuthTime := by
  simp [clearAuthToken, handleLogout, requestAuthHeader]

/-- C6: in the login flow of `LoginForm.tsx`, a response whose status is
`2fa_required` never stores a token or completes authentication — it opens
the TOTP dialog; a login completes (token stored, `onLogin` invoked) only
when the response carries a truthy `access_token`, and in `handleSubmit`
only when the status is not `2fa_required`. -/
theorem login_two_phase (r : LoginResponse) :
    (r.status = some "2fa_required" → handleSubmit r = .prompt2FA) ∧
    (∀ t u, handleSubmit r = .completeLogin t u →
      r.access_token = some t ∧ t ≠ "" ∧ r.status ≠ some "2fa_required") ∧
    (∀ t u, handleVerify2FA r = .completeLogin t u →
      r.access_token = some t ∧ t ≠ "") := by
  obtain ⟨st, tok, un, uid⟩ := r
  refine ⟨fun h => ?_, fun t u h => ?_, fun t u h => ?_⟩
  · have h' : st = some "2fa_required" := h
    simp [handleSubmit, h']
  · by_cases hst : st = some "2fa_required"
    · simp [handleSubmit, hst] at h
    · cases tok with
      | none => simp [handleSubmit, hst] at h
      | some tk =>
        by_cases ht : tk = ""
        · simp [handleSubmit, hst, ht] at h
        · simp [handleSubmit, hst, ht] at h
          obtain ⟨rfl, rfl⟩ := h
          exact ⟨rfl, ht, by simpa using hst⟩
  · cases tok with
    | none => simp [handleVerify2FA] at h
    | some tk =>
      by_cases ht : tk = ""
      · simp [handleVerify2FA, ht] at h
      · simp [handleVerify2FA, ht] at h
        obtain ⟨rfl, rfl⟩ := h
        exact ⟨rfl, ht⟩

/-- C6 witness: a concrete `2fa_required` response opens the TOTP dialog. -/
theorem login_two_phase_witness :
    handleSubmit
      { status := some "2fa_required", access_token := some "tok",
        username := "alice", user_id := none } = .prompt2FA :=
  (login_two_phase _).1 rfl

/-- C9: the axios response interceptor resolves a 401 whose request URL is
(or contains) `/api/user/settings` with default settings data — email
`null`, `totp_enabled` `false` — instead of rejecting, and gives no other
URL this fallback. -/
theorem settings401_fallback (tok user : Option String) (e : AxiosError) :
    (e.status = some 401 → urlMatchesSettings e.url = true →
      responseInterceptorOnError tok user e =
        .resolved { username := user.getD "", email := none, totp_enabled := false }) ∧
    (urlMatchesSettings e.url = false →
      ∀ d, responseInterceptorOnError tok user e ≠ .resolved d) := by
  constructor
  · intro h1 h2
    simp [responseInterceptorOnError, h1, h2]
  · intro h d
    unfold responseInterceptorOnError
    rw [if_neg (by simp [h])]
    split_ifs
    · cases tok <;> simp
    · simp

/-- C9 witness: a concrete 401 on the settings endpoint resolves with the
default settings payload. -/
theorem settings401_fallback_witness :
    responseInterceptorOnError (some "t") (some "alice")
      { status := some 401, url := some "/api/user/settings", isRetry := false } =
      .resolved { username := "alice", email := none, totp_enabled := false } :=
  (settings401_fallback (some "t") (some "alice") _).1 rfl (by decide)

/-- C7: the spec-modelled `StrengthScorer.score` maps every string, the
empty string included, into the range 0–5, with `score "" = 0`; hence the
per-account dashboard contribution `password_strength * 20` lies in 0–100
whenever the stored strength is a score. -/
theorem score_total_range :
    (∀ pw : String, score pw ≤ 5) ∧ score "" = 0 ∧
    (∀ (acc : Account) (pw : String),
      acc.password_strength = score pw → acc.password_strength * 20 ≤ 100) := by
  have hle : ∀ pw : String, score pw ≤ 5 := by
    intro pw
    unfold score
    exact min_le_right _ _
  refine ⟨hle, rfl, fun acc pw h => ?_⟩
  have := hle pw
  omega

/-- C7 witness: a concrete account whose stored strength is the score of a
concrete password has its contribution within 0–100. -/
theorem score_total_range_witness :
    ({ username := "u", password := "x", password_strength := 5,
       password_breach := false, password_reuse := [], has_2fa := false,
       last_changed := 0 } : Account).password_strength * 20 ≤ 100 :=
  score_total_range.2.2 _ "Tr0ub4dor&3" (by decide)

/-- A byte masked mod 256 and unmasked with the same pad comes back
unchanged. -/
theorem byte_mask_roundTrip (b s : Nat) (hb : b < 256) (hs : s < 256) :
    ((b + s) % 256 + 256 - s) % 256 = b := by omega

/-- C1: decrypting the bundle produced by the spec-modelled
`CredentialCipher.encrypt` with the same key returns the plaintext
exactly, for every byte-sequence plaintext, key and nonce. -/
theorem credentialCipher_roundTrip (p key nonce : List Nat)
    (hp : ∀ b ∈ p, b < 256) :
    decrypt (encrypt p key nonce) key = some p := by
  unfold encrypt decrypt
  simp only [if_pos rfl, ite_true, List.map_map, Option.some.injEq]
  calc p.map ((fun b => (b + 256 - prf (key ++ nonce) % 256) % 256) ∘
        (fun b => (b + prf (key ++ nonce) % 256) % 256))
      = p.map id := by
        apply List.map_congr_left
        intro b hb
        exact byte_mask_roundTrip b _ (hp b hb) (Nat.mod_lt _ (by omega))
    _ = p := List.map_id p

/-- C1 witness: a concrete plaintext survives the round trip. -/
theorem credentialCipher_roundTrip_witness :
    decrypt (encrypt [72, 105, 33] [1, 2, 3] [9, 9]) [1, 2, 3] = some [72, 105, 33] :=
  credentialCipher_roundTrip [72, 105, 33] [1, 2, 3] [9, 9] (by decide)

/-- C3: when every attempt against the remote breach corpus fails, the
spec-modelled `BreachChecker.check` makes exactly 3 attempts (the initial
call plus 2 retries) and returns breached `false`, checked `false`. -/
theorem breachCheck_unreachable (transport : Nat → Option (List (String × Nat)))
    (pw : String) (h : ∀ i, transport i = none) :
    breachCheck transport pw = ({ breached := false, checked := false }, 3) := by
  simp [breachCheck, runAttempts, h]

/-- C3 witness: the fully unreachable transport yields the degraded result
after 3 attempts for a concrete password. -/
theorem breachCheck_unreachable_witness :
    breachCheck (fun _ => none) "password123" =
      ({ breached := false, checked := false }, 3) :=
  breachCheck_unreachable (fun _ => none) "password123" (fun _ => rfl)

/-- C2: the spec-modelled `TotpAuthenticator.verify` with a fresh replay
tracker accepts a code exactly when it equals the expected code of the
window containing the submission time or of the immediately preceding
window (so any code matching only a window more than one step away is
rejected), and a code accepted once is rejected when resubmitted at any
time inside the same 30-second window. -/
theorem totp_window_replay (s : List Nat) (c t t' : Nat)
    (hw : t' / 30 = t / 30) :
    ((totpVerify s c t none).1 = true ↔
      (c = totpCode s (t / 30) ∨ (1 ≤ t / 30 ∧ c = totpCode s (t / 30 - 1)))) ∧
    ((totpVerify s c t none).1 = true →
      (totpVerify s c t' (totpVerify s c t none).2).1 = false) := by
  constructor
  · by_cases h1 : c = totpCode s (t / 30)
    · simp [totpVerify, h1]
    · by_cases h2 : 1 ≤ t / 30 ∧ c = totpCode s (t / 30 - 1)
      · obtain ⟨h2a, h2b⟩ := h2
        subst h2b
        simp [totpVerify, h1, h2a]
      · simp [totpVerify, h1, h2]
  · intro hacc
    by_cases h1 : c = totpCode s (t / 30)
    · simp [totpVerify, h1, hw]
    · by_cases h2 : 1 ≤ t / 30 ∧ c = totpCode s (t / 30 - 1)
      · obtain ⟨h2a, h2b⟩ := h2
        subst h2b
        simp [totpVerify, h1, h2a, hw]
      · simp [totpVerify, h1, h2] at hacc

/-- C2 witness: for a concrete secret, 79962 is the code of window 411
(time 12345); it is accepted at 12345 with a fresh tracker and rejected on
resubmission at 12346, inside the same window. -/
theorem totp_window_replay_witness :
    (12346 / 30 = 12345 / 30) ∧
    (((totpVerify [1, 2, 3] 79962 12345 none).1 = true ↔
       (79962 = totpCode [1, 2, 3] (12345 / 30) ∨
        (1 ≤ 12345 / 30 ∧ 79962 = totpCode [1, 2, 3] (12345 / 30 - 1)))) ∧
     ((totpVerify [1, 2, 3] 79962 12345 none).1 = true →
       (totpVerify [1, 2, 3] 79962 12346
          (totpVerify [1, 2, 3] 79962 12345 none).2).1 = false)) :=
  ⟨by decide, totp_window_replay [1, 2, 3] 79962 12345 12346 (by decide)⟩

/-- C4 counterexample: a password whose `last_changed` lies exactly 90 days
before `now` is flagged as aging by the dashboard chip
(`getPasswordAge >= 90` with `Math.ceil`), although its timestamp is not
older than the 90-day threshold, so the biconditional of the claim fails. -/
theorem aging_boundary_cex :
    ¬ ((agingChipShown 0 (90 * 86400000) = true) ↔
       (90 * msPerDay < ((90 * 86400000 : Int) - 0).natAbs)) := by decide

/-- C4 (amended): an account appears in the spec-modelled backend aging
list exactly when its `last_changed` is older than the 90-day threshold,
while the dashboard chip flags an account exactly when its age exceeds 89
days (the `Math.ceil` day count reaches 90); in particular a 91-day-old
password is listed and flagged and an 89-day-old one is neither. -/
theorem aging_flag_amended (accounts : List (String × Int)) (now : Int)
    (s : String) (d : Nat) :
    ((⟨s, d⟩ : AgingPassword) ∈ aging accounts 90 now ↔
      ∃ last, (s, last) ∈ accounts ∧ 90 * msPerDay < (now - last).natAbs ∧
        d = (now - last).natAbs / msPerDay) ∧
    (∀ last : Int,
      agingChipShown last now = true ↔ 89 * msPerDay < (now - last).natAbs) := by
  constructor
  · simp only [aging, List.mem_filterMap]
    constructor
    · rintro ⟨⟨s', last⟩, hmem, hf⟩
      dsimp at hf
      by_cases hgt : 90 * msPerDay < (now - last).natAbs
      · rw [if_pos hgt] at hf
        simp only [Option.some.injEq, AgingPassword.mk.injEq] at hf
        obtain ⟨rfl, rfl⟩ := hf
        exact ⟨last, hmem, hgt, rfl⟩
      · rw [if_neg hgt] at hf
        cases hf
    · rintro ⟨last, hmem, hgt, rfl⟩
      exact ⟨(s, last), hmem, by simp [hgt]⟩
  · intro last
    simp only [agingChipShown, getPasswordAge, mathCeil, msPerDay,
      decide_eq_true_eq]
    omega

/-- C4 witness: a password last changed 91 days ago trips the dashboard
aging flag. -/
theorem aging_flag_amended_witness :
    agingChipShown 0 (91 * 86400000) = true :=
  ((aging_flag_amended [] (91 * 86400000) "x" 0).2 0).mpr (by decide)

set_option maxRecDepth 1000000 in
set_option maxHeartbeats 4000000 in
/-- C5 counterexample: with 201 stored accounts of which exactly two share
the password p0 (200 distinct values), rounding gives
`reusedPasswords = Math.round(200/201*100) = 100`, so the uniqueness metric
is 100 although the passwords are not pairwise distinct, falsifying the
biconditional of the claim (and the reuse insight is suppressed). -/
theorem reuse_metric_cex :
    ¬ (((calculateSecurityMetrics reuseEdgeAccounts sampleNow).map
          (·.reusedPasswords) = some 100) ↔
       (reuseEdgeAccounts.map (·.password)).Nodup) := by decide

/-- C5 (amended): whenever the metrics are computed, all passwords pairwise
distinct gives a uniqueness metric of exactly 100 with no reuse insight;
a reused password with fewer than 200 stored accounts gives a metric below
100 and shows the reuse insight (with 200 or more accounts the rounded
metric can reach 100 despite a reuse); and in the spec-modelled analyzer
two accounts with byte-for-byte identical passwords are mutually flagged. -/
theorem reuse_metric_amended (accounts : List Account) (now : Int)
    (m : SecurityMetrics)
    (hm : calculateSecurityMetrics accounts now = some m) :
    ((accounts.map (·.password)).Nodup →
      m.reusedPasswords = 100 ∧
      "Password Reuse Detected" ∉ generateInsights m accounts.length) ∧
    (¬ (accounts.map (·.password)).Nodup → accounts.length < 200 →
      m.reusedPasswords < 100 ∧
      "Password Reuse Detected" ∈ generateInsights m accounts.length) ∧
    (∀ (entries : List (String × String)) (s₁ s₂ pw : String),
      (s₁, pw) ∈ entries → (s₂, pw) ∈ entries → s₁ ≠ s₂ →
      s₂ ∈ reuseSet entries s₁ pw ∧ s₁ ∈ reuseSet entries s₂ pw) := by
  have hne : accounts ≠ [] := by
    intro h
    rw [h] at hm
    simp [calculateSecurityMetrics] at hm
  have hlen : 0 < accounts.length := List.length_pos.mpr hne
  rw [metrics_some accounts now hne] at hm
  obtain rfl : m = _ := (Option.some.injEq _ _).mp hm.symm
  refine ⟨fun hnd => ?_, fun hnd hsmall => ?_, fun entries s₁ s₂ pw h1 h2 hne12 => ?_⟩
  · have hd : (accounts.map (·.password)).dedup.length = accounts.length := by
      rw [List.dedup_eq_self.mpr hnd, List.length_map]
    have h100 : mathRound ((accounts.map (·.password)).dedup.length * 100)
        accounts.length = 100 := by
      rw [hd]
      exact mathRound_all_distinct hlen
    refine ⟨h100, ?_⟩
    rw [reuseInsight_mem_iff]
    simp only [h100]
    omega
  · have hd : (accounts.map (·.password)).dedup.length < accounts.length := by
      have := dedup_length_lt hnd
      rwa [List.length_map] at this
    have hlt : mathRound ((accounts.map (·.password)).dedup.length * 100)
        accounts.length < 100 := mathRound_lt_hundred hd hsmall
    exact ⟨hlt, (reuseInsight_mem_iff _ _).mpr hlt⟩
  · constructor
    · simp only [reuseSet, List.mem_map, List.mem_filter]
      exact ⟨(s₂, pw), ⟨h2, by simp [hne12, Ne.symm hne12]⟩, rfl⟩
    · simp only [reuseSet, List.mem_map, List.mem_filter]
      exact ⟨(s₁, pw), ⟨h1, by simp [hne12]⟩, rfl⟩

/-- C5 witness: two accounts sharing the password a give a uniqueness
metric of 50 and show the reuse insight. -/
theorem reuse_metric_amended_witness :
    mathRound ((([mkAccount "a", mkAccount "a"].map (·.password)).dedup.length) * 100) 2 < 100 ∧
    "Password Reuse Detected" ∈
      generateInsights
        { overallScore := 50, passwordStrength := 60, passwordAge := 100,
          reusedPasswords := 50, twoFactorPercentage := 0 } 2 := by
  have h := (reuse_metric_amended [mkAccount "a", mkAccount "a"] sampleNow
      { overallScore := 53, passwordStrength := 60, passwordAge := 100,
        reusedPasswords := 50, twoFactorPercentage := 0 }
      (by decide)).2.1 (by decide) (by decide)
  exact ⟨h.1, by decide⟩

/-- C8: `calculateSecurityMetrics` returns null exactly on the empty
account map; on any non-empty map with strengths in 0–5 the four submetrics
lie in 0–100 and the overall score is the rounded arithmetic mean of the
four. -/
theorem securityMetrics_bounds (accounts : List Account) (now : Int) :
    (calculateSecurityMetrics accounts now = none ↔ accounts = []) ∧
    (accounts ≠ [] → (∀ a ∈ accounts, a.password_strength ≤ 5) →
      ∃ m, calculateSecurityMetrics accounts now = some m ∧
        m.passwordStrength ≤ 100 ∧ m.passwordAge ≤ 100 ∧
        m.reusedPasswords ≤ 100 ∧ m.twoFactorPercentage ≤ 100 ∧
        m.overallScore =
          mathRound (m.passwordStrength + m.passwordAge + m.reusedPasswords +
            m.twoFactorPercentage) 4) := by
  constructor
  · constructor
    · intro h
      by_contra hne
      rw [metrics_some accounts now hne] at h
      cases h
    · intro h
      rw [h]
      simp [calculateSecurityMetrics]
  · intro hne hstr
    have hlen : 0 < accounts.length := List.length_pos.mpr hne
    refine ⟨_, metrics_some accounts now hne, ?_, ?_, ?_, ?_, rfl⟩
    · exact mathRound_le_hundred hlen
        (by simpa using foldl_strength_le accounts hstr 0)
    · exact mathRound_le_hundred hlen
        (by
          have := List.length_filter_le
            (fun acc => decide (getPasswordAge acc.last_changed now < 90)) accounts
          omega)
    · exact mathRound_le_hundred hlen
        (by
          have h1 := (List.dedup_sublist (accounts.map (·.password))).length_le
          have h2 : (accounts.map (·.password)).length = accounts.length :=
            List.length_map _ _
          omega)
    · exact mathRound_le_hundred hlen
        (by
          have := List.length_filter_le (·.has_2fa) accounts
          omega)

/-- C8 witness: a concrete single-account map yields metrics within range. -/
theorem securityMetrics_bounds_witness :
    ∃ m, calculateSecurityMetrics [mkAccount "a"] sampleNow = some m ∧
      m.passwordStrength ≤ 100 ∧ m.passwordAge ≤ 100 ∧
      m.reusedPasswords ≤ 100 ∧ m.twoFactorPercentage ≤ 100 ∧
      m.overallScore =
        mathRound (m.passwordStrength + m.passwordAge + m.reusedPasswords +
          m.twoFactorPercentage) 4 :=
  (securityMetrics_bounds [mkAccount "a"] sampleNow).2 (by simp) (by decide)

end PasswordManager
